import Mathlib

/-!
Verification of the MSP business-management application's core rules:
the document totals calculators (BidSheet / PrintEstimate), the sequential
numbering scheme, the helpdesk Ticket SLA clock, and the ProjectCard SLA
breach latch.

Monetary values (Python Decimal) are modelled as rationals.  The Python
Decimal context rounds with ROUND_HALF_EVEN, so the two-decimal quantize
used by the bid-sheet code is modelled by quantize2 below.  Timestamps are
modelled as integers (seconds); timedelta(hours = h) is 3600 * h.
-/

/-- Floor of a rational as an integer, the building block of the rounding
modes. -/
def qfloor (q : ℚ) : ℤ := Int.floor q

/-- Round a rational to the nearest integer, ties to even: the rounding mode
ROUND_HALF_EVEN that Python's default Decimal context applies in quantize. -/
def roundHalfEven (x : ℚ) : ℤ :=
  if x - (qfloor x : ℚ) < 1/2 then qfloor x
  else if 1/2 < x - (qfloor x : ℚ) then qfloor x + 1
  else if qfloor x % 2 = 0 then qfloor x else qfloor x + 1

/-- Decimal.quantize(Decimal(0.01)) under the default context: round to two
decimal places, ties to even. -/
def quantize2 (q : ℚ) : ℚ := ((roundHalfEven (q * 100) : ℤ) : ℚ) / 100

/-- Modelled from the spec: round to two decimal places with round-half-up at
the cent (ties away from zero), the rounding mode the spec asserts.  This is
the comparator definition; the code itself never uses it. -/
def specRoundHalfUp2 (q : ℚ) : ℚ :=
  if 0 ≤ q then ((qfloor (q * 100 + 1/2) : ℤ) : ℚ) / 100
  else -(((qfloor (-q * 100 + 1/2) : ℤ) : ℚ) / 100)

lemma qfloor_eq (x : ℚ) (n : ℤ) (h1 : (n : ℚ) ≤ x) (h2 : x < (n : ℚ) + 1) :
    qfloor x = n := by
  rw [qfloor]
  exact Int.floor_eq_iff.mpr ⟨h1, by exact_mod_cast h2⟩

lemma roundHalfEven_eq_low (x : ℚ) (n : ℤ) (h1 : (n : ℚ) ≤ x)
    (h2 : x < (n : ℚ) + 1/2) : roundHalfEven x = n := by
  have hf : qfloor x = n := qfloor_eq x n h1 (by linarith)
  rw [roundHalfEven, hf, if_pos (by linarith)]

lemma roundHalfEven_eq_high (x : ℚ) (n : ℤ) (h1 : (n : ℚ) + 1/2 < x)
    (h2 : x < (n : ℚ) + 1) : roundHalfEven x = n + 1 := by
  have hf : qfloor x = n := qfloor_eq x n (by linarith) h2
  rw [roundHalfEven, hf, if_neg (by linarith), if_pos (by linarith)]

lemma roundHalfEven_eq_tie (x : ℚ) (n : ℤ) (h : x = (n : ℚ) + 1/2) :
    roundHalfEven x = if n % 2 = 0 then n else n + 1 := by
  have hf : qfloor x = n := qfloor_eq x n (by linarith) (by linarith)
  rw [roundHalfEven, hf, if_neg (by rw [h]; linarith), if_neg (by rw [h]; linarith)]

lemma quantize2_zero : quantize2 0 = 0 := by
  have h : roundHalfEven ((0 : ℚ) * 100) = 0 :=
    roundHalfEven_eq_low _ 0 (by norm_num) (by norm_num)
  rw [quantize2, h]
  norm_num

/-- A bid sheet's fields that take part in the totals calculation.
pk is None before the first database save; the calculator is a no-op then. -/
structure BidSheet where
  pk : Option ℕ
  bid_number : String
  discount_percentage : ℚ
  tax_percentage : ℚ
  subtotal : ℚ
  discount_amount : ℚ
  tax_amount : ℚ
  total_amount : ℚ
deriving DecidableEq

/-- BidSheet._calculate_totals: subtotal is the sum of the items' total_price
values; discount and tax are quantized to the cent when the percentage is
positive; total is the taxable amount plus tax.  items is the list of
total_price values of the sheet's current line items. -/
def BidSheet.calculate_totals (items : List ℚ) (s : BidSheet) : BidSheet :=
  match s.pk with
  | none => s
  | some _ =>
    { s with
      subtotal := items.sum
      discount_amount :=
        if s.discount_percentage > 0 then quantize2 (items.sum * s.discount_percentage / 100)
        else 0
      tax_amount :=
        if s.tax_percentage > 0 then
          quantize2 ((items.sum -
            (if s.discount_percentage > 0 then
              quantize2 (items.sum * s.discount_percentage / 100) else 0)) *
            s.tax_percentage / 100)
        else 0
      total_amount :=
        (items.sum -
          (if s.discount_percentage > 0 then
            quantize2 (items.sum * s.discount_percentage / 100) else 0)) +
        (if s.tax_percentage > 0 then
          quantize2 ((items.sum -
            (if s.discount_percentage > 0 then
              quantize2 (items.sum * s.discount_percentage / 100) else 0)) *
            s.tax_percentage / 100)
        else 0) }

/-- BidSheet.recalculate_totals: the public recalculation entry point runs
_calculate_totals and persists the four derived fields. -/
def BidSheet.recalculate_totals (items : List ℚ) (s : BidSheet) : BidSheet :=
  s.calculate_totals items

/-- BidItem.save: total_price = (quantity * unit_price).quantize(Decimal(0.01)). -/
def BidItem.computeTotalPrice (quantity unit_price : ℚ) : ℚ :=
  quantize2 (quantity * unit_price)

/-- A print estimate's fields that take part in the totals calculation. -/
structure PrintEstimate where
  estimate_number : String
  discount_percentage : ℚ
  tax_percentage : ℚ
  subtotal : ℚ
  discount_amount : ℚ
  tax_amount : ℚ
  total_amount : ℚ
deriving DecidableEq

/-- PrintEstimate.recalculate_totals: no quantization anywhere; discount and
tax are exact products, total is the after-discount amount plus tax. -/
def PrintEstimate.recalculate_totals (items : List ℚ) (e : PrintEstimate) : PrintEstimate :=
  { e with
    subtotal := items.sum
    discount_amount := items.sum * (e.discount_percentage / 100)
    tax_amount := (items.sum - items.sum * (e.discount_percentage / 100)) * (e.tax_percentage / 100)
    total_amount :=
      (items.sum - items.sum * (e.discount_percentage / 100)) +
      (items.sum - items.sum * (e.discount_percentage / 100)) * (e.tax_percentage / 100) }

/-- PrintEstimateItem.save: total_price = quantity * unit_price + setup_fee,
with no rounding step. -/
def PrintEstimateItem.computeTotalPrice (quantity unit_price setup_fee : ℚ) : ℚ :=
  quantity * unit_price + setup_fee

/-- Split a character list at each dash, the model of Python str.split on a
single-character separator. -/
def splitDashAux : List Char → List Char → List String
  | [], acc => [String.mk acc.reverse]
  | c :: rest, acc =>
    if c = '-' then String.mk acc.reverse :: splitDashAux rest []
    else splitDashAux rest (c :: acc)

/-- Python s.split(chr(45)). -/
def splitOnDash (s : String) : List String := splitDashAux s.data []

/-- Python int() on a string of decimal digits. -/
def digitsToNat (cs : List Char) : ℕ :=
  cs.foldl (fun acc c => acc * 10 + (c.toNat - 48)) 0

/-- Python format spec 0wd: decimal digits of n left-padded with zeros to
width w. -/
def pad (w : ℕ) (n : ℕ) : String :=
  String.mk (List.replicate (w - (Nat.toDigits 10 n).length) '0' ++ Nat.toDigits 10 n)

/-- int(number.split(chr(45))[1]): the numeric suffix of a stored identifier
such as BID-000007 or TK-000007. -/
def parseNumberSuffix (s : String) : ℕ :=
  digitsToNat ((splitOnDash s).getD 1 "").data

/-- The row with the larger id, keeping the first on ties. -/
def maxPair (a b : ℕ × String) : ℕ × String := if a.1 < b.1 then b else a

/-- Model of objects.order_by(desc id).first(): the persisted row with the
greatest primary key, or none when the table is empty.  Rows are (id,
identifier) pairs. -/
def lastById (rows : List (ℕ × String)) : Option (ℕ × String) :=
  match rows with
  | [] => none
  | r :: rest => some (rest.foldl maxPair r)

/-- The sequential integer the generators compute: the numeric suffix of the
most recently created surviving row plus one, or 1 for an empty table. -/
def nextNumberFromRows (rows : List (ℕ × String)) : ℕ :=
  match lastById rows with
  | none => 1
  | some r => parseNumberSuffix r.2 + 1

/-- BidSheet._generate_bid_number: assigns BID- followed by the six-digit
zero-padded next number. -/
def BidSheet.generate_bid_number (rows : List (ℕ × String)) (s : BidSheet) : BidSheet :=
  { s with bid_number := "BID-" ++ pad 6 (nextNumberFromRows rows) }

/-- The numbering part of BidSheet.save: the generator runs only when
bid_number is still empty, so the identifier is assigned exactly once. -/
def BidSheet.save_assign_number (rows : List (ℕ × String)) (s : BidSheet) : BidSheet :=
  if s.bid_number = "" then s.generate_bid_number rows else s

/-- The bid-sheet table: persisted (id, bid_number) rows plus the
auto-increment primary-key counter of the store. -/
structure BidTable where
  rows : List (ℕ × String)
  next_id : ℕ

/-- The empty table. -/
def BidTable.empty : BidTable := ⟨[], 1⟩

/-- Creating a bid sheet: generate its number from the current rows, insert
the new row, return the new table and the assigned identifier. -/
def BidTable.createBid (db : BidTable) : BidTable × String :=
  let n := "BID-" ++ pad 6 (nextNumberFromRows db.rows)
  (⟨(db.next_id, n) :: db.rows, db.next_id + 1⟩, n)

/-- Deleting the bid sheet with primary key i. -/
def BidTable.deleteBid (db : BidTable) (i : ℕ) : BidTable :=
  ⟨db.rows.filter (fun r => r.1 != i), db.next_id⟩

/-- Python str.startswith: whether the first character list begins the
second. -/
def leadsWith : List Char → List Char → Bool
  | [], _ => true
  | _ :: _, [] => false
  | p :: ps, c :: cs => p == c && leadsWith ps cs

/-- Lexicographic order on character lists by code point: Python string
comparison, also the identifier ordering the estimate query relies on. -/
def charListLt : List Char → List Char → Bool
  | [], [] => false
  | [], _ :: _ => true
  | _ :: _, [] => false
  | a :: as, b :: bs => if a < b then true else if b < a then false else charListLt as bs

/-- PrintEstimate.generate_estimate_number: among the rows whose identifier
starts with the month prefix PEyyyymm, take the lexicographically greatest,
read its last four characters as a number and add one; four-digit
zero-padded, appended to the prefix without a separator. -/
def PrintEstimate.generate_estimate_number (pfx : String) (numbers : List String) : String :=
  let cands := numbers.filter (fun s => leadsWith pfx.data s.data)
  let last := cands.foldl
    (fun acc s =>
      match acc with
      | none => some s
      | some b => if charListLt b.data s.data then some s else some b) none
  match last with
  | some s => pfx ++ pad 4 (digitsToNat (s.data.drop (s.data.length - 4)) + 1)
  | none => pfx ++ pad 4 1

/-- Ticket status values, helpdesk.models.Status. -/
inductive TStatus where
  | new
  | assigned
  | in_progress
  | pending_customer
  | resolved
  | closed
deriving DecidableEq

/-- Ticket priority values, helpdesk.models.Priority. -/
inductive TPriority where
  | low
  | medium
  | high
  | urgent
deriving DecidableEq

/-- helpdesk.models.SLALevel: per-priority response and resolution windows in
hours.  priority is unique in the table. -/
structure SLALevel where
  priority : TPriority
  response_time_hours : ℤ
  resolution_time_hours : ℤ
deriving DecidableEq

/-- SLALevel.objects.get(priority = p) with DoesNotExist mapped to none. -/
def findSLA (levels : List SLALevel) (p : TPriority) : Option SLALevel :=
  levels.find? (fun l => l.priority == p)

/-- helpdesk.models.Ticket: the fields the SLA clock and the status
transitions read and write.  Timestamps are integer seconds; a database NULL
is none. -/
structure Ticket where
  ticket_number : String
  priority : TPriority
  status : TStatus
  created_at : Option ℤ
  first_response_at : Option ℤ
  resolved_at : Option ℤ
  closed_at : Option ℤ
  response_due : Option ℤ
  resolution_due : Option ℤ
deriving DecidableEq

/-- Ticket._generate_ticket_number: assign TK- plus the six-digit zero-padded
next number, only when ticket_number is still empty. -/
def Ticket.generate_ticket_number (rows : List (ℕ × String)) (t : Ticket) : Ticket :=
  if t.ticket_number = "" then
    { t with ticket_number := "TK-" ++ pad 6 (nextNumberFromRows rows) }
  else t

/-- Ticket._set_creation_time: stamp created_at when unset. -/
def Ticket.set_creation_time (now : ℤ) (t : Ticket) : Ticket :=
  if t.created_at = none then { t with created_at := some now } else t

/-- Ticket._handle_status_changes: stamp resolved_at on first entry to
resolved, stamp closed_at and backfill resolved_at on first entry to closed,
and clear both when moving from resolved or closed back to an open status.
old_status is the persisted status before this save, none for a new row.
The code runs three sequential if statements; none of them changes status, and
their conditions are pairwise exclusive on the status value, so the chain is
written as if / else if here. -/
def Ticket.handle_status_changes (now : ℤ) (old_status : Option TStatus)
    (t : Ticket) : Ticket :=
  if t.status = TStatus.resolved ∧ old_status ≠ some TStatus.resolved then
    { t with resolved_at := if t.resolved_at = none then some now else t.resolved_at }
  else if t.status = TStatus.closed ∧ old_status ≠ some TStatus.closed then
    { t with
      closed_at := if t.closed_at = none then some now else t.closed_at
      resolved_at := if t.resolved_at = none then some now else t.resolved_at }
  else if t.status ≠ TStatus.resolved ∧ t.status ≠ TStatus.closed ∧
      (old_status = some TStatus.resolved ∨ old_status = some TStatus.closed) then
    { t with resolved_at := none, closed_at := none }
  else t

/-- Ticket._set_sla_times: when either deadline is unset, look the priority up
in the SLALevel table; a missing level leaves both deadlines untouched, and a
deadline that is already set is never recomputed.  The save path stamps
created_at before this runs, so the created_at = none branch is unreachable
from save and leaves the ticket unchanged. -/
def Ticket.set_sla_times (levels : List SLALevel) (t : Ticket) : Ticket :=
  if t.response_due = none ∨ t.resolution_due = none then
    match findSLA levels t.priority, t.created_at with
    | some sla, some c =>
      { t with
        response_due :=
          if t.response_due = none then some (c + 3600 * sla.response_time_hours)
          else t.response_due
        resolution_due :=
          if t.resolution_due = none then some (c + 3600 * sla.resolution_time_hours)
          else t.resolution_due }
    | _, _ => t
  else t

/-- Ticket.save: number generation, creation-time stamping, status-transition
side effects, then SLA deadline resolution, in the code's order.  rows backs
the number generator, levels the SLA lookup, old_status models the
database read of the pre-save status. -/
def Ticket.save (rows : List (ℕ × String)) (levels : List SLALevel) (now : ℤ)
    (old_status : Option TStatus) (t : Ticket) : Ticket :=
  (((t.generate_ticket_number rows).set_creation_time now).handle_status_changes
    now old_status).set_sla_times levels

/-- Ticket.is_response_overdue: false as soon as a first response exists or no
deadline is set; otherwise whether now is past the deadline. -/
def Ticket.is_response_overdue (now : ℤ) (t : Ticket) : Bool :=
  match t.first_response_at, t.response_due with
  | some _, _ => false
  | none, none => false
  | none, some d => decide (d < now)

/-- Ticket.is_resolution_overdue: the resolution analogue. -/
def Ticket.is_resolution_overdue (now : ℤ) (t : Ticket) : Bool :=
  match t.resolved_at, t.resolution_due with
  | some _, _ => false
  | none, none => false
  | none, some d => decide (d < now)

/-- Ticket.was_response_sla_met: none when either timestamp is missing,
otherwise whether the first response came at or before the deadline. -/
def Ticket.was_response_sla_met (t : Ticket) : Option Bool :=
  match t.first_response_at, t.response_due with
  | some m, some d => some (decide (m ≤ d))
  | _, _ => none

/-- Ticket.was_resolution_sla_met: the resolution analogue. -/
def Ticket.was_resolution_sla_met (t : Ticket) : Option Bool :=
  match t.resolved_at, t.resolution_due with
  | some m, some d => some (decide (m ≤ d))
  | _, _ => none

/-- Ticket.sla_status: for terminal tickets classify from the two SLA-met
values, treating a wholly unrecorded first response as met; for open tickets
report Overdue or On Track from the overdue predicates. -/
def Ticket.sla_status (now : ℤ) (t : Ticket) : String :=
  if t.status = TStatus.resolved ∨ t.status = TStatus.closed then
    let response_met :=
      if t.was_response_sla_met = none ∧ t.first_response_at = none then some true
      else t.was_response_sla_met
    let resolution_met := t.was_resolution_sla_met
    if response_met = some false ∨ resolution_met = some false then "SLA Missed"
    else if response_met = some true ∧ resolution_met = some true then "SLA Met"
    else "Incomplete Data"
  else if t.is_response_overdue now || t.is_resolution_overdue now then "Overdue"
  else "On Track"

/-- tracking.models.ProjectCard: the fields the SLA breach latch reads and
writes. -/
structure ProjectCard where
  sla_hours : ℤ
  sla_due_date : Option ℤ
  sla_breached : Bool
  created_at : Option ℤ
  completed_at : Option ℤ
deriving DecidableEq

/-- ProjectCard.is_overdue: now past the due date while the card has a due
date and is not completed. -/
def ProjectCard.is_overdue (now : ℤ) (c : ProjectCard) : Bool :=
  match c.sla_due_date, c.completed_at with
  | some d, none => decide (d < now)
  | _, _ => false

/-- ProjectCard.calculate_sla_due_date: created_at + sla_hours, skipped when
created_at is unset or sla_hours is zero (both falsy in the code). -/
def ProjectCard.calculate_sla_due_date (c : ProjectCard) : ProjectCard :=
  match c.created_at with
  | some tc =>
    if c.sla_hours ≠ 0 then { c with sla_due_date := some (tc + 3600 * c.sla_hours) } else c
  | none => c

/-- The first half of ProjectCard.save: fill sla_due_date when unset. -/
def ProjectCard.fill_due_date (c : ProjectCard) : ProjectCard :=
  if c.sla_due_date = none then c.calculate_sla_due_date else c

/-- ProjectCard.save: fill the due date, then latch sla_breached to true when
the card is observed overdue.  Nothing ever writes false back. -/
def ProjectCard.save (now : ℤ) (c : ProjectCard) : ProjectCard :=
  let c1 := c.fill_due_date
  if c1.is_overdue now && !c1.sla_breached then { c1 with sla_breached := true } else c1

/-- django.core.validators.MinValueValidator m: accepts v iff m ≤ v. -/
def minValueValidator (m : ℚ) (v : ℚ) : Bool := decide (m ≤ v)

/-- Run a field's declared validator list, as form full_clean does: the value
is accepted iff every validator accepts it. -/
def runValidators (vs : List (ℚ → Bool)) (v : ℚ) : Bool := vs.all (fun f => f v)

/-- Validators declared on BidItem.quantity. -/
def BidItem.quantityValidators : List (ℚ → Bool) := [minValueValidator (1/100)]

/-- Validators declared on BidItem.unit_price. -/
def BidItem.unitPriceValidators : List (ℚ → Bool) := [minValueValidator 0]

/-- Validators declared on PrintEstimateItem.quantity: the field declares
none. -/
def PrintEstimateItem.quantityValidators : List (ℚ → Bool) := []

/-- Validators declared on PrintEstimateItem.unit_price: the field declares
none. -/
def PrintEstimateItem.unitPriceValidators : List (ℚ → Bool) := []

/-- Submitting a bid line item: form validation then BidItem.save.  Returns
the persisted (quantity, unit_price, total_price) or none on rejection. -/
def BidItem.submit (quantity unit_price : ℚ) : Option (ℚ × ℚ × ℚ) :=
  if runValidators BidItem.quantityValidators quantity &&
      runValidators BidItem.unitPriceValidators unit_price then
    some (quantity, unit_price, BidItem.computeTotalPrice quantity unit_price)
  else none

/-- Submitting a print estimate line item: form validation (no declared
validators) then PrintEstimateItem.save. -/
def PrintEstimateItem.submit (quantity unit_price setup_fee : ℚ) : Option (ℚ × ℚ × ℚ) :=
  if runValidators PrintEstimateItem.quantityValidators quantity &&
      runValidators PrintEstimateItem.unitPriceValidators unit_price then
    some (quantity, unit_price, PrintEstimateItem.computeTotalPrice quantity unit_price setup_fee)
  else none

lemma generate_ticket_number_preserves (rows : List (ℕ × String)) (t : Ticket) :
    (t.generate_ticket_number rows).status = t.status ∧
    (t.generate_ticket_number rows).priority = t.priority ∧
    (t.generate_ticket_number rows).created_at = t.created_at ∧
    (t.generate_ticket_number rows).first_response_at = t.first_response_at ∧
    (t.generate_ticket_number rows).resolved_at = t.resolved_at ∧
    (t.generate_ticket_number rows).closed_at = t.closed_at ∧
    (t.generate_ticket_number rows).response_due = t.response_due ∧
    (t.generate_ticket_number rows).resolution_due = t.resolution_due := by
  rw [Ticket.generate_ticket_number]
  split <;> exact ⟨rfl, rfl, rfl, rfl, rfl, rfl, rfl, rfl⟩

lemma set_creation_time_preserves (now : ℤ) (t : Ticket) :
    (t.set_creation_time now).status = t.status ∧
    (t.set_creation_time now).priority = t.priority ∧
    (t.set_creation_time now).ticket_number = t.ticket_number ∧
    (t.set_creation_time now).first_response_at = t.first_response_at ∧
    (t.set_creation_time now).resolved_at = t.resolved_at ∧
    (t.set_creation_time now).closed_at = t.closed_at ∧
    (t.set_creation_time now).response_due = t.response_due ∧
    (t.set_creation_time now).resolution_due = t.resolution_due := by
  rw [Ticket.set_creation_time]
  split <;> exact ⟨rfl, rfl, rfl, rfl, rfl, rfl, rfl, rfl⟩

lemma handle_status_changes_preserves (now : ℤ) (old : Option TStatus) (t : Ticket) :
    (t.handle_status_changes now old).status = t.status ∧
    (t.handle_status_changes now old).priority = t.priority ∧
    (t.handle_status_changes now old).ticket_number = t.ticket_number ∧
    (t.handle_status_changes now old).created_at = t.created_at ∧
    (t.handle_status_changes now old).first_response_at = t.first_response_at ∧
    (t.handle_status_changes now old).response_due = t.response_due ∧
    (t.handle_status_changes now old).resolution_due = t.resolution_due := by
  rw [Ticket.handle_status_changes]
  split
  · exact ⟨rfl, rfl, rfl, rfl, rfl, rfl, rfl⟩
  · split
    · exact ⟨rfl, rfl, rfl, rfl, rfl, rfl, rfl⟩
    · split <;> exact ⟨rfl, rfl, rfl, rfl, rfl, rfl, rfl⟩

lemma set_sla_times_preserves (levels : List SLALevel) (t : Ticket) :
    (t.set_sla_times levels).status = t.status ∧
    (t.set_sla_times levels).priority = t.priority ∧
    (t.set_sla_times levels).ticket_number = t.ticket_number ∧
    (t.set_sla_times levels).created_at = t.created_at ∧
    (t.set_sla_times levels).first_response_at = t.first_response_at ∧
    (t.set_sla_times levels).resolved_at = t.resolved_at ∧
    (t.set_sla_times levels).closed_at = t.closed_at := by
  rw [Ticket.set_sla_times]
  split
  · split <;> exact ⟨rfl, rfl, rfl, rfl, rfl, rfl, rfl⟩
  · exact ⟨rfl, rfl, rfl, rfl, rfl, rfl, rfl⟩

/-- C4: is_response_overdue holds exactly when no first response is recorded,
a response deadline exists, and now is past it; analogously for resolution;
once the milestone timestamp is recorded the overdue predicate is false for
every now; lateness is instead captured by was_response_sla_met and
was_resolution_sla_met, which compare the milestone to the deadline. -/
theorem C4_overdue_predicates (now : ℤ) (t : Ticket) :
    (t.is_response_overdue now = true ↔
      t.first_response_at = none ∧ ∃ d, t.response_due = some d ∧ d < now) ∧
    (t.is_resolution_overdue now = true ↔
      t.resolved_at = none ∧ ∃ d, t.resolution_due = some d ∧ d < now) ∧
    (∀ m, t.first_response_at = some m → t.is_response_overdue now = false) ∧
    (∀ m, t.resolved_at = some m → t.is_resolution_overdue now = false) ∧
    (∀ m d, t.first_response_at = some m → t.response_due = some d →
      t.was_response_sla_met = some (decide (m ≤ d))) ∧
    (∀ m d, t.resolved_at = some m → t.resolution_due = some d →
      t.was_resolution_sla_met = some (decide (m ≤ d))) := by
  refine ⟨?_, ?_, ?_, ?_, ?_, ?_⟩
  · cases hf : t.first_response_at <;> cases hd : t.response_due <;>
      simp [Ticket.is_response_overdue, hf, hd]
  · cases hf : t.resolved_at <;> cases hd : t.resolution_due <;>
      simp [Ticket.is_resolution_overdue, hf, hd]
  · intro m hm
    cases hd : t.response_due <;> simp [Ticket.is_response_overdue, hm, hd]
  · intro m hm
    cases hd : t.resolution_due <;> simp [Ticket.is_resolution_overdue, hm, hd]
  · intro m d hm hd
    simp [Ticket.was_response_sla_met, hm, hd]
  · intro m d hm hd
    simp [Ticket.was_resolution_sla_met, hm, hd]

/-- Witness for C4 at a concrete ticket: no first response, deadline 3,
now 5, so the response is overdue. -/
theorem C4_overdue_predicates_witness :
    Ticket.is_response_overdue 5
      ⟨"TK-000001", TPriority.low, TStatus.new, some 0, none, none, none,
        some 3, some 10⟩ = true :=
  ((C4_overdue_predicates 5 _).1).mpr ⟨rfl, 3, rfl, by decide⟩

lemma set_creation_time_created_at (now : ℤ) (t : Ticket) :
    (t.set_creation_time now).created_at =
      (if t.created_at = none then some now else t.created_at) := by
  rw [Ticket.set_creation_time]
  split <;> simp [*]

lemma set_sla_times_no_level (levels : List SLALevel) (t : Ticket)
    (h : findSLA levels t.priority = none) :
    (t.set_sla_times levels).response_due = t.response_due ∧
    (t.set_sla_times levels).resolution_due = t.resolution_due := by
  rw [Ticket.set_sla_times]
  split
  · simp [h]
  · exact ⟨rfl, rfl⟩

lemma set_sla_times_level (levels : List SLALevel) (t : Ticket) (sla : SLALevel) (c : ℤ)
    (hs : findSLA levels t.priority = some sla) (hc : t.created_at = some c) :
    (t.set_sla_times levels).response_due =
      (if t.response_due = none then some (c + 3600 * sla.response_time_hours)
        else t.response_due) ∧
    (t.set_sla_times levels).resolution_due =
      (if t.resolution_due = none then some (c + 3600 * sla.resolution_time_hours)
        else t.resolution_due) := by
  rw [Ticket.set_sla_times]
  by_cases hdue : t.response_due = none ∨ t.resolution_due = none
  · rw [if_pos hdue]
    simp [hs, hc]
  · rw [if_neg hdue]
    push_neg at hdue
    simp [hdue.1, hdue.2]

lemma overdue_false_of_no_response_due (now : ℤ) (t : Ticket)
    (h : t.response_due = none) : t.is_response_overdue now = false := by
  cases hf : t.first_response_at <;> simp [Ticket.is_response_overdue, hf, h]

lemma overdue_false_of_no_resolution_due (now : ℤ) (t : Ticket)
    (h : t.resolution_due = none) : t.is_resolution_overdue now = false := by
  cases hf : t.resolved_at <;> simp [Ticket.is_resolution_overdue, hf, h]

/-- C7: a priority with no SLALevel row leaves both deadlines null through
save and both overdue predicates false; with a level, an unset deadline
becomes created_at plus the configured hours, and a deadline that is already
set survives save unchanged whatever the level table or the priority now
says. -/
theorem C7_sla_lookup (rows : List (ℕ × String)) (levels : List SLALevel)
    (now : ℤ) (old : Option TStatus) (t : Ticket) :
    (findSLA levels t.priority = none → t.response_due = none →
      t.resolution_due = none →
      (Ticket.save rows levels now old t).response_due = none ∧
      (Ticket.save rows levels now old t).resolution_due = none ∧
      (∀ now2 : ℤ,
        (Ticket.save rows levels now old t).is_response_overdue now2 = false ∧
        (Ticket.save rows levels now old t).is_resolution_overdue now2 = false)) ∧
    (∀ sla : SLALevel, ∀ c : ℤ, findSLA levels t.priority = some sla →
      t.created_at = some c →
      (t.response_due = none →
        (Ticket.save rows levels now old t).response_due =
          some (c + 3600 * sla.response_time_hours)) ∧
      (t.resolution_due = none →
        (Ticket.save rows levels now old t).resolution_due =
          some (c + 3600 * sla.resolution_time_hours))) ∧
    (∀ d : ℤ, (t.response_due = some d →
        (Ticket.save rows levels now old t).response_due = some d) ∧
      (t.resolution_due = some d →
        (Ticket.save rows levels now old t).resolution_due = some d)) := by
  obtain ⟨g1, g2, g3, g4, g5, g6, g7, g8⟩ := generate_ticket_number_preserves rows t
  obtain ⟨s1, s2, s3, s4, s5, s6, s7, s8⟩ :=
    set_creation_time_preserves now (t.generate_ticket_number rows)
  obtain ⟨h1, h2, h3, h4, h5, h6, h7⟩ :=
    handle_status_changes_preserves now old
      ((t.generate_ticket_number rows).set_creation_time now)
  set t3 :=
    ((t.generate_ticket_number rows).set_creation_time now).handle_status_changes
      now old with ht3
  have hprio : t3.priority = t.priority := h2.trans (s2.trans g2)
  have hrdue : t3.response_due = t.response_due := h6.trans (s7.trans g7)
  have hsdue : t3.resolution_due = t.resolution_due := h7.trans (s8.trans g8)
  have hsave : Ticket.save rows levels now old t = t3.set_sla_times levels := rfl
  refine ⟨?_, ?_, ?_⟩
  · intro hno hr hs
    have hno3 : findSLA levels t3.priority = none := by rw [hprio]; exact hno
    obtain ⟨e1, e2⟩ := set_sla_times_no_level levels t3 hno3
    have er : (Ticket.save rows levels now old t).response_due = none := by
      rw [hsave, e1, hrdue, hr]
    have es : (Ticket.save rows levels now old t).resolution_due = none := by
      rw [hsave, e2, hsdue, hs]
    exact ⟨er, es, fun now2 =>
      ⟨overdue_false_of_no_response_due now2 _ er,
        overdue_false_of_no_resolution_due now2 _ es⟩⟩
  · intro sla c hsla hc
    have hc3 : t3.created_at = some c := by
      rw [h4, set_creation_time_created_at, g3, hc]
      simp
    have hsla3 : findSLA levels t3.priority = some sla := by rw [hprio]; exact hsla
    obtain ⟨e1, e2⟩ := set_sla_times_level levels t3 sla c hsla3 hc3
    constructor
    · intro hr
      rw [hsave, e1, hrdue, hr]
      simp
    · intro hs
      rw [hsave, e2, hsdue, hs]
      simp
  · intro d
    constructor
    · intro hr
      have hr3 : t3.response_due = some d := hrdue.trans hr
      rw [hsave, Ticket.set_sla_times]
      split
      · split
        · simp [hr3]
        · exact hr3
      · exact hr3
    · intro hs
      have hs3 : t3.resolution_due = some d := hsdue.trans hs
      rw [hsave, Ticket.set_sla_times]
      split
      · split
        · simp [hs3]
        · exact hs3
      · exact hs3

/-- Witness for C7: a ticket with priority urgent, an SLALevel of 2 response
hours and 8 resolution hours, and no preset deadlines gets
response_due = created_at + 2 hours. -/
theorem C7_sla_lookup_witness :
    (Ticket.save [] [⟨TPriority.urgent, 2, 8⟩] 50 none
      ⟨"", TPriority.urgent, TStatus.new, some 100, none, none, none, none,
        none⟩).response_due = some (100 + 3600 * 2) :=
  ((C7_sla_lookup [] [⟨TPriority.urgent, 2, 8⟩] 50 none
      ⟨"", TPriority.urgent, TStatus.new, some 100, none, none, none, none,
        none⟩).2.1
    ⟨TPriority.urgent, 2, 8⟩ 100 (by decide) rfl).1 rfl

lemma handle_resolved_entry (now : ℤ) (old : Option TStatus) (t : Ticket)
    (h1 : t.status = TStatus.resolved) (h2 : old ≠ some TStatus.resolved) :
    (t.handle_status_changes now old).resolved_at =
      (if t.resolved_at = none then some now else t.resolved_at) ∧
    (t.handle_status_changes now old).closed_at = t.closed_at := by
  rw [Ticket.handle_status_changes, if_pos ⟨h1, h2⟩]
  exact ⟨rfl, rfl⟩

lemma handle_closed_entry (now : ℤ) (old : Option TStatus) (t : Ticket)
    (h1 : t.status = TStatus.closed) (h2 : old ≠ some TStatus.closed) :
    (t.handle_status_changes now old).closed_at =
      (if t.closed_at = none then some now else t.closed_at) ∧
    (t.handle_status_changes now old).resolved_at =
      (if t.resolved_at = none then some now else t.resolved_at) := by
  rw [Ticket.handle_status_changes, if_neg (by simp [h1]), if_pos ⟨h1, h2⟩]
  exact ⟨rfl, rfl⟩

lemma handle_reopen (now : ℤ) (old : Option TStatus) (t : Ticket)
    (h1 : t.status ≠ TStatus.resolved) (h2 : t.status ≠ TStatus.closed)
    (h3 : old = some TStatus.resolved ∨ old = some TStatus.closed) :
    (t.handle_status_changes now old).resolved_at = none ∧
    (t.handle_status_changes now old).closed_at = none := by
  rw [Ticket.handle_status_changes, if_neg (by simp [h1]), if_neg (by simp [h2]),
    if_pos ⟨h1, h2, h3⟩]
  exact ⟨rfl, rfl⟩

/-- C5: through Ticket.save, entering resolved for the first time stamps
resolved_at when unset and leaves closed_at alone; entering closed for the
first time stamps closed_at when unset and backfills resolved_at when unset;
and moving from resolved or closed back to an open status clears both
timestamps. -/
theorem C5_status_transition_side_effects (rows : List (ℕ × String))
    (levels : List SLALevel) (now : ℤ) (old : Option TStatus) (t : Ticket) :
    (t.status = TStatus.resolved → old ≠ some TStatus.resolved →
      (Ticket.save rows levels now old t).resolved_at =
        (if t.resolved_at = none then some now else t.resolved_at) ∧
      (Ticket.save rows levels now old t).closed_at = t.closed_at) ∧
    (t.status = TStatus.closed → old ≠ some TStatus.closed →
      (Ticket.save rows levels now old t).closed_at =
        (if t.closed_at = none then some now else t.closed_at) ∧
      (Ticket.save rows levels now old t).resolved_at =
        (if t.resolved_at = none then some now else t.resolved_at)) ∧
    (t.status ≠ TStatus.resolved → t.status ≠ TStatus.closed →
      (old = some TStatus.resolved ∨ old = some TStatus.closed) →
      (Ticket.save rows levels now old t).resolved_at = none ∧
      (Ticket.save rows levels now old t).closed_at = none) := by
  obtain ⟨g1, g2, g3, g4, g5, g6, g7, g8⟩ := generate_ticket_number_preserves rows t
  obtain ⟨s1, s2, s3, s4, s5, s6, s7, s8⟩ :=
    set_creation_time_preserves now (t.generate_ticket_number rows)
  set t2 := (t.generate_ticket_number rows).set_creation_time now with ht2
  obtain ⟨p1, p2, p3, p4, p5, p6, p7⟩ :=
    set_sla_times_preserves levels (t2.handle_status_changes now old)
  have hst : t2.status = t.status := s1.trans g1
  have hres : t2.resolved_at = t.resolved_at := s5.trans g5
  have hclo : t2.closed_at = t.closed_at := s6.trans g6
  have hsave :
      Ticket.save rows levels now old t =
        (t2.handle_status_changes now old).set_sla_times levels := rfl
  refine ⟨?_, ?_, ?_⟩
  · intro h1 h2
    obtain ⟨e1, e2⟩ :=
      handle_resolved_entry now old t2 (hst.trans h1) h2
    constructor
    · rw [hsave, p6, e1, hres]
    · rw [hsave, p7, e2, hclo]
  · intro h1 h2
    obtain ⟨e1, e2⟩ :=
      handle_closed_entry now old t2 (hst.trans h1) h2
    constructor
    · rw [hsave, p7, e1, hclo]
    · rw [hsave, p6, e2, hres]
  · intro h1 h2 h3
    obtain ⟨e1, e2⟩ :=
      handle_reopen now old t2 (by rw [hst]; exact h1) (by rw [hst]; exact h2) h3
    exact ⟨by rw [hsave, p6, e1], by rw [hsave, p7, e2]⟩

/-- Witness for C5 at a concrete ticket: a ticket entering resolved with
resolved_at unset gets resolved_at stamped to now. -/
theorem C5_status_transition_side_effects_witness :
    (Ticket.save [] [] 40 (some TStatus.in_progress)
      ⟨"TK-000001", TPriority.low, TStatus.resolved, some 0, none, none, none,
        none, none⟩).resolved_at = some 40 :=
  ((C5_status_transition_side_effects [] [] 40 (some TStatus.in_progress)
      ⟨"TK-000001", TPriority.low, TStatus.resolved, some 0, none, none, none,
        none, none⟩).1 rfl (by decide)).1

/-- C10: for a terminal ticket with no recorded first response, sla_status
treats the response SLA as met: the result is SLA Missed exactly when the
resolution milestone exists and came after its deadline, SLA Met exactly when
it exists and came at or before its deadline, and Incomplete Data exactly
when the resolution milestone or deadline is missing, so a missing first
response alone never produces Incomplete Data. -/
theorem C10_sla_status_terminal (now : ℤ) (t : Ticket)
    (hterm : t.status = TStatus.resolved ∨ t.status = TStatus.closed)
    (hfr : t.first_response_at = none) :
    (t.sla_status now = "SLA Missed" ↔
      ∃ m d, t.resolved_at = some m ∧ t.resolution_due = some d ∧ d < m) ∧
    (t.sla_status now = "SLA Met" ↔
      ∃ m d, t.resolved_at = some m ∧ t.resolution_due = some d ∧ m ≤ d) ∧
    (t.sla_status now = "Incomplete Data" ↔
      (t.resolved_at = none ∨ t.resolution_due = none)) := by
  have hne1 : ("Incomplete Data" : String) ≠ "SLA Missed" := by decide
  have hne2 : ("Incomplete Data" : String) ≠ "SLA Met" := by decide
  have hne3 : ("SLA Missed" : String) ≠ "SLA Met" := by decide
  have hne4 : ("SLA Met" : String) ≠ "SLA Missed" := by decide
  have hne5 : ("SLA Missed" : String) ≠ "Incomplete Data" := by decide
  have hne6 : ("SLA Met" : String) ≠ "Incomplete Data" := by decide
  rw [Ticket.sla_status, if_pos hterm]
  cases hm : t.resolved_at with
  | none =>
    cases hd : t.resolution_due <;>
      simp [Ticket.was_response_sla_met, Ticket.was_resolution_sla_met, hfr, hm,
        hd, hne1, hne2]
  | some m =>
    cases hd : t.resolution_due with
    | none =>
      simp [Ticket.was_response_sla_met, Ticket.was_resolution_sla_met, hfr, hm,
        hd, hne1, hne2]
    | some d =>
      by_cases hle : m ≤ d
      · simp [Ticket.was_response_sla_met, Ticket.was_resolution_sla_met, hfr,
          hm, hd, hle, hne4, hne6]
      · simp [Ticket.was_response_sla_met, Ticket.was_resolution_sla_met, hfr,
          hm, hd, hle, hne3, hne5]
        all_goals omega

/-- Witness for C10: a resolved ticket with no first response whose
resolution came after its deadline is classified SLA Missed. -/
theorem C10_sla_status_terminal_witness :
    Ticket.sla_status 10
      ⟨"TK-000001", TPriority.low, TStatus.resolved, some 0, none, some 5, none,
        some 2, some 3⟩ = "SLA Missed" :=
  ((C10_sla_status_terminal 10
      ⟨"TK-000001", TPriority.low, TStatus.resolved, some 0, none, some 5, none,
        some 2, some 3⟩ (Or.inl rfl) rfl).1).mpr ⟨5, 3, rfl, rfl, by decide⟩

lemma fill_due_date_preserves (c : ProjectCard) :
    c.fill_due_date.sla_breached = c.sla_breached ∧
    c.fill_due_date.completed_at = c.completed_at ∧
    c.fill_due_date.sla_hours = c.sla_hours ∧
    c.fill_due_date.created_at = c.created_at := by
  rw [ProjectCard.fill_due_date]
  split
  · rw [ProjectCard.calculate_sla_due_date]
    split
    · split <;> exact ⟨rfl, rfl, rfl, rfl⟩
    · exact ⟨rfl, rfl, rfl, rfl⟩
  · exact ⟨rfl, rfl, rfl, rfl⟩

lemma save_breached_eq (now : ℤ) (c : ProjectCard) :
    (ProjectCard.save now c).sla_breached =
      (c.sla_breached || ProjectCard.is_overdue now c.fill_due_date) := by
  obtain ⟨hb, _, _, _⟩ := fill_due_date_preserves c
  rw [ProjectCard.save]
  cases ho : ProjectCard.is_overdue now c.fill_due_date <;>
    cases hbr : c.sla_breached <;> simp [ho, hb, hbr]

/-- C6: sla_breached is a one-way latch.  On every save the flag becomes the
old flag or-ed with the overdue check on the card with its due date filled
in; in particular a save at a time past the due date of an uncompleted card
sets it true; and once true it survives every later save, whatever times
those saves observe. -/
theorem C6_sla_breached_latch (now : ℤ) (c : ProjectCard) :
    ((ProjectCard.save now c).sla_breached =
      (c.sla_breached || ProjectCard.is_overdue now c.fill_due_date)) ∧
    (∀ d : ℤ, c.sla_due_date = some d → d < now → c.completed_at = none →
      (ProjectCard.save now c).sla_breached = true) ∧
    (∀ ts : List ℤ, c.sla_breached = true →
      (ts.foldl (fun card tm => ProjectCard.save tm card) c).sla_breached = true) := by
  refine ⟨save_breached_eq now c, ?_, ?_⟩
  · intro d hdue hlt hcomp
    have hfill : c.fill_due_date = c := by
      rw [ProjectCard.fill_due_date, if_neg (by simp [hdue])]
    have hover : ProjectCard.is_overdue now c.fill_due_date = true := by
      rw [hfill, ProjectCard.is_overdue]
      simp [hdue, hcomp, hlt]
    rw [save_breached_eq now c, hover, Bool.or_true]
  · intro ts
    induction ts generalizing c with
    | nil => intro h; exact h
    | cons tm rest ih =>
      intro h
      have hstep : (ProjectCard.save tm c).sla_breached = true := by
        rw [save_breached_eq tm c, h, Bool.true_or]
      exact ih (ProjectCard.save tm c) hstep

/-- Witness for C6: an uncompleted card whose due date 3 has passed at save
time 5 latches sla_breached, and the latch survives later saves at earlier
observation times. -/
theorem C6_sla_breached_latch_witness :
    (ProjectCard.save 5 ⟨24, some 3, false, some 0, none⟩).sla_breached = true ∧
    (([1, 2] : List ℤ).foldl (fun card tm => ProjectCard.save tm card)
      ⟨24, some 3, true, some 0, none⟩).sla_breached = true :=
  ⟨(C6_sla_breached_latch 5 ⟨24, some 3, false, some 0, none⟩).2.1 3 rfl
      (by decide) rfl,
    (C6_sla_breached_latch 0 ⟨24, some 3, true, some 0, none⟩).2.2 [1, 2] rfl⟩

lemma calculate_totals_fields (items : List ℚ) (s : BidSheet) (k : ℕ)
    (hk : s.pk = some k) :
    (s.calculate_totals items).subtotal = items.sum ∧
    (s.calculate_totals items).discount_amount =
      (if s.discount_percentage > 0 then
        quantize2 (items.sum * s.discount_percentage / 100) else 0) ∧
    (s.calculate_totals items).tax_amount =
      (if s.tax_percentage > 0 then
        quantize2 ((items.sum -
          (if s.discount_percentage > 0 then
            quantize2 (items.sum * s.discount_percentage / 100) else 0)) *
          s.tax_percentage / 100)
       else 0) ∧
    (s.calculate_totals items).total_amount =
      (items.sum -
        (if s.discount_percentage > 0 then
          quantize2 (items.sum * s.discount_percentage / 100) else 0)) +
      (if s.tax_percentage > 0 then
        quantize2 ((items.sum -
          (if s.discount_percentage > 0 then
            quantize2 (items.sum * s.discount_percentage / 100) else 0)) *
          s.tax_percentage / 100)
       else 0) := by
  unfold BidSheet.calculate_totals
  rw [hk]
  exact ⟨rfl, rfl, rfl, rfl⟩

lemma print_recalculate_fields (items : List ℚ) (e : PrintEstimate) :
    (e.recalculate_totals items).subtotal = items.sum ∧
    (e.recalculate_totals items).discount_amount =
      items.sum * (e.discount_percentage / 100) ∧
    (e.recalculate_totals items).tax_amount =
      (items.sum - items.sum * (e.discount_percentage / 100)) * (e.tax_percentage / 100) ∧
    (e.recalculate_totals items).total_amount =
      (items.sum - items.sum * (e.discount_percentage / 100)) +
      (items.sum - items.sum * (e.discount_percentage / 100)) * (e.tax_percentage / 100) := by
  rw [PrintEstimate.recalculate_totals]
  exact ⟨rfl, rfl, rfl, rfl⟩

/-- Counterexample to C1 as stated: a saved bid sheet with a single 10.01 item
and a 5 percent discount stores discount_amount 0.50, not the exact product
10.01 times 5 over 100 = 0.5005, because the code quantizes to the cent. -/
theorem C1_claim_counterexample :
    ¬ ((BidSheet.calculate_totals [1001/100]
          ⟨some 1, "BID-000001", 5, 0, 0, 0, 0, 0⟩).discount_amount =
        (BidSheet.calculate_totals [1001/100]
          ⟨some 1, "BID-000001", 5, 0, 0, 0, 0, 0⟩).subtotal * 5 / 100) := by
  have hq : quantize2 ((1001/100 : ℚ) * 5 / 100) = 1/2 := by
    have h : roundHalfEven ((1001/100 : ℚ) * 5 / 100 * 100) = 50 :=
      roundHalfEven_eq_low _ 50 (by norm_num) (by norm_num)
    rw [quantize2, h]
    norm_num
  have hpos : (0 : ℚ) < 5 := by norm_num
  obtain ⟨f1, f2, _, _⟩ :=
    calculate_totals_fields [1001/100] ⟨some 1, "BID-000001", 5, 0, 0, 0, 0, 0⟩ 1 rfl
  intro habs
  rw [f1, f2] at habs
  simp only [List.sum_cons, List.sum_nil, add_zero] at habs
  rw [if_pos hpos, hq] at habs
  norm_num at habs

/-- C1 (amended): after recalculation, subtotal is the exact sum of the line
items' total_price values and total_amount = subtotal - discount_amount +
tax_amount exactly, for both document kinds; discount_amount and tax_amount
equal the spec formulas quantized to the cent (ties to even) for BidSheet,
and the exact unrounded formulas for PrintEstimate; with zero line items all
four derived fields are zero. -/
theorem C1_amended_totals_invariant (items : List ℚ) (s : BidSheet)
    (e : PrintEstimate) (k : ℕ) (hk : s.pk = some k)
    (hd : 0 ≤ s.discount_percentage) (ht : 0 ≤ s.tax_percentage) :
    ((s.calculate_totals items).subtotal = items.sum ∧
     (s.calculate_totals items).discount_amount =
       quantize2 ((s.calculate_totals items).subtotal * s.discount_percentage / 100) ∧
     (s.calculate_totals items).tax_amount =
       quantize2 (((s.calculate_totals items).subtotal -
         (s.calculate_totals items).discount_amount) * s.tax_percentage / 100) ∧
     (s.calculate_totals items).total_amount =
       (s.calculate_totals items).subtotal -
         (s.calculate_totals items).discount_amount +
         (s.calculate_totals items).tax_amount ∧
     (items = [] →
       (s.calculate_totals items).subtotal = 0 ∧
       (s.calculate_totals items).discount_amount = 0 ∧
       (s.calculate_totals items).tax_amount = 0 ∧
       (s.calculate_totals items).total_amount = 0)) ∧
    ((e.recalculate_totals items).subtotal = items.sum ∧
     (e.recalculate_totals items).discount_amount =
       (e.recalculate_totals items).subtotal * e.discount_percentage / 100 ∧
     (e.recalculate_totals items).tax_amount =
       ((e.recalculate_totals items).subtotal -
         (e.recalculate_totals items).discount_amount) * e.tax_percentage / 100 ∧
     (e.recalculate_totals items).total_amount =
       (e.recalculate_totals items).subtotal -
         (e.recalculate_totals items).discount_amount +
         (e.recalculate_totals items).tax_amount ∧
     (items = [] →
       (e.recalculate_totals items).subtotal = 0 ∧
       (e.recalculate_totals items).discount_amount = 0 ∧
       (e.recalculate_totals items).tax_amount = 0 ∧
       (e.recalculate_totals items).total_amount = 0)) := by
  obtain ⟨f1, f2, f3, f4⟩ := calculate_totals_fields items s k hk
  have hdisc :
      (if s.discount_percentage > 0 then
        quantize2 (items.sum * s.discount_percentage / 100) else 0) =
      quantize2 (items.sum * s.discount_percentage / 100) := by
    by_cases hp : s.discount_percentage > 0
    · rw [if_pos hp]
    · rw [if_neg hp]
      have h0 : s.discount_percentage = 0 := le_antisymm (not_lt.mp hp) hd
      rw [h0]
      rw [show items.sum * 0 / 100 = (0 : ℚ) by ring, quantize2_zero]
  have htax :
      (if s.tax_percentage > 0 then
        quantize2 ((items.sum -
          (if s.discount_percentage > 0 then
            quantize2 (items.sum * s.discount_percentage / 100) else 0)) *
          s.tax_percentage / 100)
       else 0) =
      quantize2 ((items.sum -
        (if s.discount_percentage > 0 then
          quantize2 (items.sum * s.discount_percentage / 100) else 0)) *
        s.tax_percentage / 100) := by
    by_cases hp : s.tax_percentage > 0
    · rw [if_pos hp]
    · rw [if_neg hp]
      have h0 : s.tax_percentage = 0 := le_antisymm (not_lt.mp hp) ht
      rw [h0]
      rw [show ∀ y : ℚ, y * 0 / 100 = (0 : ℚ) from fun y => by ring, quantize2_zero]
  obtain ⟨p1, p2, p3, p4⟩ := print_recalculate_fields items e
  refine ⟨⟨f1, ?_, ?_, ?_, ?_⟩, ⟨p1, ?_, ?_, ?_, ?_⟩⟩
  · rw [f2, hdisc, f1]
  · rw [f3, htax, f1, f2]
  · rw [f4, f1, f2, f3, htax]
  · intro hempty
    subst hempty
    simp only [List.sum_nil] at f1 f2 f3 f4 hdisc htax
    have hz : quantize2 ((0 : ℚ) * s.discount_percentage / 100) = 0 := by
      rw [show (0 : ℚ) * s.discount_percentage / 100 = (0 : ℚ) by ring, quantize2_zero]
    have hz2 :
        (if s.discount_percentage > 0 then
          quantize2 ((0 : ℚ) * s.discount_percentage / 100) else 0) = 0 := by
      rw [hdisc, hz]
    have hz3 :
        (if s.tax_percentage > 0 then
          quantize2 (((0 : ℚ) -
            (if s.discount_percentage > 0 then
              quantize2 ((0 : ℚ) * s.discount_percentage / 100) else 0)) *
            s.tax_percentage / 100)
         else 0) = 0 := by
      rw [htax, hz2]
      rw [show ((0 : ℚ) - 0) * s.tax_percentage / 100 = (0 : ℚ) by ring, quantize2_zero]
    refine ⟨f1, ?_, ?_, ?_⟩
    · rw [f2, hz2]
    · rw [f3, hz3]
    · rw [f4, hz3, hz2]
      ring
  · rw [p2, p1]
    ring
  · rw [p3, p1, p2]
    ring
  · rw [p4, p1, p2, p3]
  · intro hempty
    subst hempty
    simp only [List.sum_nil] at p1 p2 p3 p4
    refine ⟨p1, ?_, ?_, ?_⟩
    · rw [p2]; ring
    · rw [p3]; ring
    · rw [p4]; ring

/-- Witness for C1 (amended) at a concrete sheet and estimate: one 10.01 item
with a 5 percent discount yields subtotal 10.01 on the bid sheet. -/
theorem C1_amended_totals_invariant_witness :
    (BidSheet.calculate_totals [1001/100]
      ⟨some 1, "BID-000001", 5, 0, 0, 0, 0, 0⟩).subtotal = 1001/100 :=
  Eq.trans
    ((C1_amended_totals_invariant [1001/100]
      ⟨some 1, "BID-000001", 5, 0, 0, 0, 0, 0⟩
      ⟨"PE2025100001", 0, 0, 0, 0, 0, 0⟩ 1 rfl (by norm_num) (by norm_num)).1.1)
    (by norm_num)

lemma roundHalfEven_dist (x : ℚ) : |x - (roundHalfEven x : ℚ)| ≤ 1/2 := by
  have h1 : (qfloor x : ℚ) ≤ x := by
    rw [qfloor]
    exact Int.floor_le x
  have h2 : x < (qfloor x : ℚ) + 1 := by
    rw [qfloor]
    exact_mod_cast Int.lt_floor_add_one x
  rw [roundHalfEven]
  split_ifs with ha hb hc
  · rw [abs_le]
    constructor <;> linarith
  · rw [abs_le]
    push_cast
    constructor <;> linarith
  · rw [abs_le]
    constructor <;> linarith
  · rw [abs_le]
    push_cast
    constructor <;> linarith

lemma bid_item_tie_even : BidItem.computeTotalPrice (1/2) (1/20) = 1/50 := by
  have h : roundHalfEven ((1/2 : ℚ) * (1/20) * 100) = 2 := by
    rw [roundHalfEven_eq_tie ((1/2 : ℚ) * (1/20) * 100) 2 (by norm_num)]
    norm_num
  rw [BidItem.computeTotalPrice, quantize2, h]
  norm_num

lemma bid_item_tie_odd : BidItem.computeTotalPrice (7/10) (1/20) = 1/25 := by
  have h : roundHalfEven ((7/10 : ℚ) * (1/20) * 100) = 4 := by
    rw [roundHalfEven_eq_tie ((7/10 : ℚ) * (1/20) * 100) 3 (by norm_num)]
    norm_num
  rw [BidItem.computeTotalPrice, quantize2, h]
  norm_num

/-- Counterexample to C2 as stated: the tie 0.5 times 0.05 = 0.025 is stored
as 0.02 by the bid-item rounding (ties to even), while round-half-up would
give 0.03; and a print-estimate item is not rounded at all, storing 0.025
itself. -/
theorem C2_claim_counterexample :
    (BidItem.computeTotalPrice (1/2) (1/20) ≠ specRoundHalfUp2 ((1/2) * (1/20))) ∧
    (PrintEstimateItem.computeTotalPrice (1/2) (1/20) 0 ≠
      specRoundHalfUp2 ((1/2) * (1/20) + 0)) := by
  have hup : specRoundHalfUp2 ((1/2 : ℚ) * (1/20)) = 3/100 := by
    have h : qfloor ((1/2 : ℚ) * (1/20) * 100 + 1/2) = 3 :=
      qfloor_eq _ 3 (by norm_num) (by norm_num)
    rw [specRoundHalfUp2, if_pos (by norm_num), h]
    norm_num
  have hup2 : specRoundHalfUp2 ((1/2 : ℚ) * (1/20) + 0) = 3/100 := by
    have h : qfloor (((1/2 : ℚ) * (1/20) + 0) * 100 + 1/2) = 3 :=
      qfloor_eq _ 3 (by norm_num) (by norm_num)
    rw [specRoundHalfUp2, if_pos (by norm_num), h]
    norm_num
  constructor
  · rw [bid_item_tie_even, hup]
    norm_num
  · rw [PrintEstimateItem.computeTotalPrice, hup2]
    norm_num

/-- C2 (amended): a bid item's stored total_price is quantity times
unit_price rounded to the cent with ties to even (always an integer number of
cents, within half a cent of the exact product; 0.025 rounds down to 0.02 and
0.035 rounds up to 0.04); a print estimate item's total_price is the exact
unrounded quantity times unit_price plus setup_fee; and the worked example
with line totals 20.00 and 75.00, discount 10 percent and tax 8.25 percent
yields subtotal 95.00, discount 9.50, tax 7.05 and total 92.55 on a bid
sheet. -/
theorem C2_amended_rounding (q p fee : ℚ) :
    (∃ n : ℤ, BidItem.computeTotalPrice q p = (n : ℚ) / 100 ∧
      |q * p - BidItem.computeTotalPrice q p| ≤ 1/200) ∧
    BidItem.computeTotalPrice (1/2) (1/20) = 1/50 ∧
    BidItem.computeTotalPrice (7/10) (1/20) = 1/25 ∧
    PrintEstimateItem.computeTotalPrice q p fee = q * p + fee ∧
    ((BidSheet.calculate_totals [20, 75]
        ⟨some 1, "BID-000001", 10, 33/4, 0, 0, 0, 0⟩).subtotal = 95 ∧
      (BidSheet.calculate_totals [20, 75]
        ⟨some 1, "BID-000001", 10, 33/4, 0, 0, 0, 0⟩).discount_amount = 19/2 ∧
      (BidSheet.calculate_totals [20, 75]
        ⟨some 1, "BID-000001", 10, 33/4, 0, 0, 0, 0⟩).tax_amount = 141/20 ∧
      (BidSheet.calculate_totals [20, 75]
        ⟨some 1, "BID-000001", 10, 33/4, 0, 0, 0, 0⟩).total_amount = 1851/20) := by
  refine ⟨?_, bid_item_tie_even, bid_item_tie_odd, rfl, ?_⟩
  · refine ⟨roundHalfEven (q * p * 100), rfl, ?_⟩
    have hdist := roundHalfEven_dist (q * p * 100)
    rw [abs_le] at hdist ⊢
    rw [BidItem.computeTotalPrice, quantize2]
    constructor <;> [linarith [hdist.1]; linarith [hdist.2]]
  · obtain ⟨f1, f2, f3, f4⟩ :=
      calculate_totals_fields [20, 75] ⟨some 1, "BID-000001", 10, 33/4, 0, 0, 0, 0⟩ 1 rfl
    have hsum : ([20, 75] : List ℚ).sum = 95 := by
      simp [List.sum_cons, List.sum_nil]
      norm_num
    have hdisc : quantize2 ((95 : ℚ) * 10 / 100) = 19/2 := by
      rw [quantize2, roundHalfEven_eq_low ((95 : ℚ) * 10 / 100 * 100) 950
        (by norm_num) (by norm_num)]
      norm_num
    have htax : quantize2 (((95 : ℚ) - 19/2) * (33/4) / 100) = 141/20 := by
      rw [quantize2, roundHalfEven_eq_low (((95 : ℚ) - 19/2) * (33/4) / 100 * 100) 705
        (by norm_num) (by norm_num)]
      norm_num
    rw [hsum] at f1 f2 f3 f4
    simp only [show ((10 : ℚ) > 0) = True from eq_true (by norm_num),
      show ((33/4 : ℚ) > 0) = True from eq_true (by norm_num), if_true] at f2 f3 f4
    rw [hdisc] at f2 f3 f4
    rw [htax] at f3 f4
    refine ⟨f1, f2, f3, ?_⟩
    rw [f4]
    norm_num

/-- C9: recalculation is idempotent and order-independent for both document
kinds: running it twice over the same line items equals running it once, and
permuting the line items does not change any derived field. -/
theorem C9_recalculation_idempotent_order_independent
    (items l1 l2 : List ℚ) (s : BidSheet) (e : PrintEstimate)
    (hperm : l1.Perm l2) :
    BidSheet.recalculate_totals items (BidSheet.recalculate_totals items s) =
      BidSheet.recalculate_totals items s ∧
    PrintEstimate.recalculate_totals items (PrintEstimate.recalculate_totals items e) =
      PrintEstimate.recalculate_totals items e ∧
    BidSheet.recalculate_totals l1 s = BidSheet.recalculate_totals l2 s ∧
    PrintEstimate.recalculate_totals l1 e = PrintEstimate.recalculate_totals l2 e := by
  have hsum : l1.sum = l2.sum := hperm.sum_eq
  refine ⟨?_, ?_, ?_, ?_⟩
  · cases hpk : s.pk with
    | none =>
      simp [BidSheet.recalculate_totals, BidSheet.calculate_totals, hpk]
    | some k =>
      simp [BidSheet.recalculate_totals, BidSheet.calculate_totals, hpk]
  · simp [PrintEstimate.recalculate_totals]
  · cases hpk : s.pk with
    | none =>
      simp [BidSheet.recalculate_totals, BidSheet.calculate_totals, hpk]
    | some k =>
      simp [BidSheet.recalculate_totals, BidSheet.calculate_totals, hpk, hsum]
  · simp [PrintEstimate.recalculate_totals, hsum]

/-- Witness for C9 at a concrete permutation: summing a bid sheet's items as
two then one equals summing them as one then two. -/
theorem C9_recalculation_witness :
    BidSheet.recalculate_totals [2, 1] ⟨some 1, "BID-000001", 0, 0, 0, 0, 0, 0⟩ =
      BidSheet.recalculate_totals [1, 2] ⟨some 1, "BID-000001", 0, 0, 0, 0, 0, 0⟩ :=
  (C9_recalculation_idempotent_order_independent [] [2, 1] [1, 2]
    ⟨some 1, "BID-000001", 0, 0, 0, 0, 0, 0⟩ ⟨"PE2025100001", 0, 0, 0, 0, 0, 0⟩
    (List.Perm.swap (1 : ℚ) 2 [])).2.2.1

/-- Counterexample to C8 as stated: a print-estimate line item with quantity
-1 and unit price -5 passes validation (the fields declare no validators) and
is persisted unchanged with total_price 5, not rejected. -/
theorem C8_claim_counterexample :
    PrintEstimateItem.submit (-1) (-5) 0 = some (-1, -5, 5) := by
  rw [PrintEstimateItem.submit]
  rw [if_pos (by rfl)]
  rw [PrintEstimateItem.computeTotalPrice]
  norm_num

/-- C8 (amended): a bid line item is accepted by validation exactly when
quantity is at least 0.01 and unit_price is at least 0, and anything it
persists satisfies those bounds unclamped; a print-estimate line item
declares no validators, so every input is accepted and persisted unchanged. -/
theorem C8_amended_validation (q p fee : ℚ) :
    ((BidItem.submit q p).isSome = true ↔ 1/100 ≤ q ∧ 0 ≤ p) ∧
    (∀ r : ℚ × ℚ × ℚ, BidItem.submit q p = some r →
      r.1 = q ∧ r.2.1 = p ∧ 1/100 ≤ r.1 ∧ 0 ≤ r.2.1) ∧
    PrintEstimateItem.submit q p fee =
      some (q, p, PrintEstimateItem.computeTotalPrice q p fee) := by
  have hcond :
      (runValidators BidItem.quantityValidators q &&
        runValidators BidItem.unitPriceValidators p) = true ↔
      1/100 ≤ q ∧ 0 ≤ p := by
    simp [runValidators, BidItem.quantityValidators, BidItem.unitPriceValidators,
      minValueValidator]
  refine ⟨?_, ?_, ?_⟩
  · rw [BidItem.submit]
    by_cases h :
        (runValidators BidItem.quantityValidators q &&
          runValidators BidItem.unitPriceValidators p) = true
    · rw [if_pos h]
      simpa using hcond.mp h
    · rw [if_neg h]
      simp only [Option.isSome_none, Bool.false_eq_true, false_iff]
      intro hqp
      exact h (hcond.mpr hqp)
  · intro r hr
    rw [BidItem.submit] at hr
    by_cases h :
        (runValidators BidItem.quantityValidators q &&
          runValidators BidItem.unitPriceValidators p) = true
    · rw [if_pos h] at hr
      obtain ⟨hq, hp⟩ := hcond.mp h
      cases hr
      exact ⟨rfl, rfl, hq, hp⟩
    · rw [if_neg h] at hr
      cases hr
  · rw [PrintEstimateItem.submit, if_pos (by rfl)]

/-- Witness for C8 (amended): quantity 1 at price 2 passes bid-item
validation. -/
theorem C8_amended_validation_witness :
    (BidItem.submit 1 2).isSome = true :=
  (C8_amended_validation 1 2 0).1.mpr ⟨by norm_num, by norm_num⟩

lemma foldl_maxPair_ge (l : List (ℕ × String)) :
    ∀ a : ℕ × String, a.1 ≤ (l.foldl maxPair a).1 ∧
      ∀ x ∈ l, x.1 ≤ (l.foldl maxPair a).1 := by
  induction l with
  | nil =>
    intro a
    exact ⟨le_refl _, by simp⟩
  | cons b bs ih =>
    intro a
    obtain ⟨h1, h2⟩ := ih (maxPair a b)
    have ha : a.1 ≤ (maxPair a b).1 := by
      rw [maxPair]
      split_ifs with h
      · exact le_of_lt h
      · exact le_refl _
    have hb : b.1 ≤ (maxPair a b).1 := by
      rw [maxPair]
      split_ifs with h
      · exact le_refl _
      · exact not_lt.mp h
    simp only [List.foldl_cons]
    refine ⟨le_trans ha h1, ?_⟩
    intro x hx
    rcases List.mem_cons.mp hx with rfl | hx
    · exact le_trans hb h1
    · exact h2 x hx

lemma foldl_maxPair_mem (l : List (ℕ × String)) :
    ∀ a : ℕ × String, l.foldl maxPair a = a ∨ l.foldl maxPair a ∈ l := by
  induction l with
  | nil =>
    intro a
    exact Or.inl rfl
  | cons b bs ih =>
    intro a
    simp only [List.foldl_cons]
    rcases ih (maxPair a b) with h | h
    · rw [h, maxPair]
      split_ifs with hx
      · exact Or.inr (List.mem_cons_self b bs)
      · exact Or.inl rfl
    · exact Or.inr (List.mem_cons_of_mem b h)

lemma foldr_max_eq (l : List ℕ) (m : ℕ) (hm : m ∈ l) (hub : ∀ x ∈ l, x ≤ m) :
    l.foldr max 0 = m := by
  have hle : ∀ l2 : List ℕ, (∀ x ∈ l2, x ≤ m) → l2.foldr max 0 ≤ m := by
    intro l2
    induction l2 with
    | nil => intro _; exact Nat.zero_le m
    | cons a as ih =>
      intro h
      simp only [List.foldr_cons]
      exact max_le (h a (List.mem_cons_self a as))
        (ih fun x hx => h x (List.mem_cons_of_mem a hx))
  have hge : ∀ l2 : List ℕ, m ∈ l2 → m ≤ l2.foldr max 0 := by
    intro l2
    induction l2 with
    | nil => intro h; cases h
    | cons a as ih =>
      intro h
      simp only [List.foldr_cons]
      rcases List.mem_cons.mp h with rfl | h
      · exact le_max_left _ _
      · exact le_trans (ih h) (le_max_right _ _)
  exact le_antisymm (hle l hub) (hge l hm)

/-- Counterexample to C3 as stated: create two bid sheets (numbers BID-000001
and BID-000002), delete the second, and create again: the generator reads the
surviving row with the greatest id (BID-000001) and assigns BID-000002 once
more, reusing the deleted header's identifier. -/
theorem C3_claim_counterexample :
    BidTable.empty.createBid.1.createBid.2 = "BID-000002" ∧
    (BidTable.empty.createBid.1.createBid.1.deleteBid 2).rows.map Prod.snd =
      ["BID-000001"] ∧
    ((BidTable.empty.createBid.1.createBid.1.deleteBid 2).createBid).2 =
      "BID-000002" := by
  refine ⟨by decide, by decide, by decide⟩

/-- C3 (amended): an identifier is assigned exactly once, on first save, as
the prefix plus a zero-padded sequential integer equal to the numeric suffix
of the most recently created surviving header plus one (1 when none exist);
when suffixes are monotone in creation order this is the maximum existing
suffix plus one; print estimates use a PEyyyymm prefix with a four-digit
per-month sequence and no separator; and a deleted newest header's number is
reused by the next creation, so the counter is not monotonic over
deletions. -/
theorem C3_amended_numbering (rows : List (ℕ × String)) (s : BidSheet)
    (t : Ticket) :
    (s.bid_number ≠ "" → s.save_assign_number rows = s) ∧
    (s.bid_number = "" →
      (s.save_assign_number rows).bid_number =
        "BID-" ++ pad 6 (nextNumberFromRows rows)) ∧
    (t.ticket_number ≠ "" → t.generate_ticket_number rows = t) ∧
    (t.ticket_number = "" →
      (t.generate_ticket_number rows).ticket_number =
        "TK-" ++ pad 6 (nextNumberFromRows rows)) ∧
    (rows ≠ [] →
      (∀ x ∈ rows, ∀ y ∈ rows, x.1 ≤ y.1 →
        parseNumberSuffix x.2 ≤ parseNumberSuffix y.2) →
      nextNumberFromRows rows =
        (rows.map (fun r => parseNumberSuffix r.2)).foldr max 0 + 1) ∧
    (((BidTable.empty.createBid.1.createBid.1.deleteBid 2).createBid).2 =
      BidTable.empty.createBid.1.createBid.2) ∧
    (PrintEstimate.generate_estimate_number "PE202510"
      ["PE2025100001", "PE2025100003", "PE2025100002", "PE2025090009"] =
      "PE2025100004") := by
  refine ⟨?_, ?_, ?_, ?_, ?_, by decide, by decide⟩
  · intro h
    rw [BidSheet.save_assign_number, if_neg h]
  · intro h
    rw [BidSheet.save_assign_number, if_pos h, BidSheet.generate_bid_number]
  · intro h
    rw [Ticket.generate_ticket_number, if_neg h]
  · intro h
    rw [Ticket.generate_ticket_number, if_pos h]
  · intro hne hmono
    cases rows with
    | nil => exact absurd rfl hne
    | cons r rest =>
      have hlast : lastById (r :: rest) = some (rest.foldl maxPair r) := rfl
      have hmem : rest.foldl maxPair r ∈ r :: rest := by
        rcases foldl_maxPair_mem rest r with h | h
        · rw [h]; exact List.mem_cons_self r rest
        · exact List.mem_cons_of_mem r h
      have hub : ∀ x ∈ r :: rest, x.1 ≤ (rest.foldl maxPair r).1 := by
        obtain ⟨h1, h2⟩ := foldl_maxPair_ge rest r
        intro x hx
        rcases List.mem_cons.mp hx with rfl | hx
        · exact h1
        · exact h2 x hx
      have hmax :
          ((r :: rest).map (fun x => parseNumberSuffix x.2)).foldr max 0 =
            parseNumberSuffix (rest.foldl maxPair r).2 := by
        apply foldr_max_eq
        · exact List.mem_map_of_mem (fun x => parseNumberSuffix x.2) hmem
        · intro v hv
          obtain ⟨x, hx, rfl⟩ := List.mem_map.mp hv
          exact hmono x hx (rest.foldl maxPair r) hmem (hub x hx)
      rw [hmax]
      rfl

/-- Witness for C3 (amended): with surviving rows numbered 1 and 7 the next
bid number is BID-000008, which is also the maximum surviving suffix plus
one. -/
theorem C3_amended_numbering_witness :
    (BidSheet.save_assign_number [(1, "BID-000001"), (2, "BID-000007")]
      ⟨none, "", 0, 0, 0, 0, 0, 0⟩).bid_number = "BID-000008" ∧
    nextNumberFromRows [(1, "BID-000001"), (2, "BID-000007")] =
      ([(1, "BID-000001"), (2, "BID-000007")].map
        (fun r => parseNumberSuffix r.2)).foldr max 0 + 1 :=
  ⟨Eq.trans
      ((C3_amended_numbering [(1, "BID-000001"), (2, "BID-000007")]
        ⟨none, "", 0, 0, 0, 0, 0, 0⟩
        ⟨"", TPriority.low, TStatus.new, none, none, none, none, none,
          none⟩).2.1 rfl)
      (by decide),
    (C3_amended_numbering [(1, "BID-000001"), (2, "BID-000007")]
        ⟨none, "", 0, 0, 0, 0, 0, 0⟩
        ⟨"", TPriority.low, TStatus.new, none, none, none, none, none,
          none⟩).2.2.2.2.1 (by decide) (by decide)⟩
